import Mathlib

/-!
Verification of the zoom_kurokesu repository (pollen-robotics/zoom_kurokesu).

The repository holds two revisions of a serial G-code driver for the
Kurokesu camera zoom/focus stage:
* `zoom_kurokesu/zoom_piloting.py` — class `ZoomController` (current revision);
* `optical_zoom/zoom_piloting.py`  — class `ZoomController` (earlier revision),
  embedded below in namespace `OpticalZoom`.

The serial channel is modelled as a transcript of events:
each write of a newline-terminated command becomes a `SerialEvent.write` carrying
the exact line (newline included), and each `ser.readline()` becomes a
`SerialEvent.read`.  Every operation returns the transcript it produced
together with either the resulting controller state or the Python exception
it raised (`Except`).  Python dictionaries keyed by strings are embedded as
association lists with lookup `dget`; a missing key is a `KeyError`.
-/

/-- One event on the serial channel: a line written, or one blocking readline. -/
inductive SerialEvent where
  | write (line : String)
  | read
  deriving Repr, DecidableEq

/-- Python exceptions raised by the driver. -/
inductive PyError where
  | valueError (msg : String)
  | ioError (msg : String)
  | assertionError (msg : String)
  | keyError
  deriving Repr, DecidableEq

/-- Lookup in a string-keyed dictionary (Python `d[k]`); `none` is a KeyError. -/
def dget {α : Type} : List (String × α) → String → Option α
  | [], _ => none
  | (k, v) :: rest, key => if key = k then some v else dget rest key

/-- The pair of motor letters bound to one connector (`motors[...]` entry). -/
structure MotorPair where
  zoom : String
  focus : String
  deriving Repr, DecidableEq

/-- `ZoomController.connector`: side name → connector id. -/
def connector : List (String × String) :=
  [("left", "J1"), ("right", "J2")]

/-- `ZoomController.motors`: connector id → motor letters per axis. -/
def motors : List (String × MotorPair) :=
  [("J1", ⟨"X", "Y"⟩), ("J2", ⟨"Z", "A"⟩)]

/-- One entry of the position table: absolute zoom and focus values. -/
structure ZoomFocus where
  zoom : Int
  focus : Int
  deriving Repr, DecidableEq

/-- `ZoomController.zoom_pos`: (side, named level) → (zoom, focus). -/
def zoom_pos : List (String × List (String × ZoomFocus)) :=
  [ ("left",
      [ ("in", ⟨457, 70⟩), ("inter", ⟨270, 331⟩), ("out", ⟨0, 455⟩) ]),
    ("right",
      [ ("in", ⟨457, 42⟩), ("inter", ⟨270, 321⟩), ("out", ⟨0, 445⟩) ]) ]

/-- The mutable instance state of a `ZoomController`: the stored feed speed.
(The topology and position tables are class-level constants, embedded above
as top-level definitions; the serial handle is the event transcript.) -/
structure ZoomController where
  speed : Int
  deriving Repr, DecidableEq

/-- The fixed controller-configuration line sent by `__init__`. -/
def init_seq : String := "G100 P9 L144 N0 S0 F1 R1"

/-- `ZoomController.__init__`: opens the port (transport parameters are
passed through to `serial.Serial` and do not affect driver state), stores
`speed`, writes the init sequence, reads one line, and raises `IOError`
unless the reply decodes to the literal string "ok\r\n".  `reply` is the
line the channel returns to the single `readline()`. -/
def ZoomController.init (port : String) (baudrate timeout speed : Int)
    (reply : String) : List SerialEvent × Except PyError ZoomController :=
  let _ := port
  let _ := baudrate
  let _ := timeout
  let events := [SerialEvent.write (init_seq ++ "\n"), SerialEvent.read]
  if reply = "ok\r\n" then
    (events, Except.ok ⟨speed⟩)
  else
    (events, Except.error (PyError.ioError
      "Initialization of zoom controller failed, check that the control board is correctly plugged in."))

/-- `ZoomController._send_custom_command`: looks up the motor letters for
`side` and sends two lines — zoom axis first, then focus axis — each
followed by one readline.  Performs no range validation. -/
def ZoomController.send_custom_command (self : ZoomController) (side : String)
    (zoom focus : Int) : List SerialEvent × Except PyError ZoomController :=
  match Option.bind (dget connector side) (dget motors) with
  | none => ([], Except.error PyError.keyError)
  | some mot =>
    let cmd1 := "G1 " ++ mot.zoom ++ toString zoom ++ " F" ++ toString self.speed
    let cmd2 := "G1 " ++ mot.focus ++ toString focus ++ " F" ++ toString self.speed
    ([SerialEvent.write (cmd1 ++ "\n"), SerialEvent.read,
      SerialEvent.write (cmd2 ++ "\n"), SerialEvent.read],
     Except.ok self)

/-- `ZoomController.send_zoom_command`: resolves `(side, zoom_level)` in the
position table and forwards the two values to `_send_custom_command`. -/
def ZoomController.send_zoom_command (self : ZoomController)
    (side zoom_level : String) : List SerialEvent × Except PyError ZoomController :=
  match Option.bind (dget zoom_pos side) (fun t => dget t zoom_level) with
  | none => ([], Except.error PyError.keyError)
  | some zf => self.send_custom_command side zf.zoom zf.focus

/-- `ZoomController.send_custom_zoom_two_cameras`: raises `ValueError` only
when the `or`-combined bounds check fails (i.e. when BOTH values are out of
the 0–600 range), otherwise sends one combined line and reads one line. -/
def ZoomController.send_custom_zoom_two_cameras (self : ZoomController)
    (left_zoom right_zoom : Int) : List SerialEvent × Except PyError ZoomController :=
  if ¬ ((0 ≤ left_zoom ∧ left_zoom ≤ 600) ∨ (0 ≤ right_zoom ∧ right_zoom ≤ 600)) then
    ([], Except.error (PyError.valueError "Zoom value must be between 0 and 600."))
  else
    match Option.bind (dget connector "left") (dget motors),
          Option.bind (dget connector "right") (dget motors) with
    | some mot_l, some mot_r =>
      let command := "G1 " ++ mot_l.zoom ++ toString left_zoom ++ " "
        ++ mot_r.zoom ++ toString right_zoom ++ " F" ++ toString self.speed
      ([SerialEvent.write (command ++ "\n"), SerialEvent.read], Except.ok self)
    | _, _ => ([], Except.error PyError.keyError)

/-- `ZoomController.send_custom_focus_two_cameras`: same `or`-combined check
against the 0–500 range, then one combined focus line and one readline. -/
def ZoomController.send_custom_focus_two_cameras (self : ZoomController)
    (left_focus right_focus : Int) : List SerialEvent × Except PyError ZoomController :=
  if ¬ ((0 ≤ left_focus ∧ left_focus ≤ 500) ∨ (0 ≤ right_focus ∧ right_focus ≤ 500)) then
    ([], Except.error (PyError.valueError "Zoom value must be between 0 and 500."))
  else
    match Option.bind (dget connector "left") (dget motors),
          Option.bind (dget connector "right") (dget motors) with
    | some mot_l, some mot_r =>
      let command := "G1 " ++ mot_l.focus ++ toString left_focus ++ " "
        ++ mot_r.focus ++ toString right_focus ++ " F" ++ toString self.speed
      ([SerialEvent.write (command ++ "\n"), SerialEvent.read], Except.ok self)
    | _, _ => ([], Except.error PyError.keyError)

/-- `ZoomController.send_zoom_command_two_cameras`: resolves both named zoom
levels to their zoom values and forwards them to
`send_custom_zoom_two_cameras`. -/
def ZoomController.send_zoom_command_two_cameras (self : ZoomController)
    (left_zoom right_zoom : String) : List SerialEvent × Except PyError ZoomController :=
  match Option.bind (dget zoom_pos "left") (fun t => dget t left_zoom),
        Option.bind (dget zoom_pos "right") (fun t => dget t right_zoom) with
  | some l, some r => self.send_custom_zoom_two_cameras l.zoom r.zoom
  | _, _ => ([], Except.error PyError.keyError)

/-- `ZoomController.homing`: set-zero line, `_send_custom_command(side, 0, -500)`,
`_send_custom_command(side, -600, -500)`, set-zero line again (the
`time.sleep` settle delays produce no serial traffic). -/
def ZoomController.homing (self : ZoomController) (side : String) :
    List SerialEvent × Except PyError ZoomController :=
  match Option.bind (dget connector side) (dget motors) with
  | none => ([], Except.error PyError.keyError)
  | some mot =>
    let zeroCmd := "G92 " ++ mot.zoom ++ "0 " ++ mot.focus ++ "0"
    let pre := [SerialEvent.write (zeroCmd ++ "\n"), SerialEvent.read]
    match self.send_custom_command side 0 (-500) with
    | (ev1, Except.error e) => (pre ++ ev1, Except.error e)
    | (ev1, Except.ok s1) =>
      match s1.send_custom_command side (-600) (-500) with
      | (ev2, Except.error e) => (pre ++ ev1 ++ ev2, Except.error e)
      | (ev2, Except.ok s2) =>
        (pre ++ ev1 ++ ev2 ++ [SerialEvent.write (zeroCmd ++ "\n"), SerialEvent.read],
         Except.ok s2)

/-- `ZoomController.set_speed`: raises `ValueError` unless
4000 ≤ speed_value ≤ 40000 (inclusive bounds), otherwise stores the value.
No serial traffic. -/
def ZoomController.set_speed (self : ZoomController) (speed_value : Int) :
    Except PyError ZoomController :=
  if ¬ (4000 ≤ speed_value ∧ speed_value ≤ 40000) then
    Except.error (PyError.valueError "Speed value must be between 4000 and 40000")
  else
    Except.ok { self with speed := speed_value }

namespace OpticalZoom

/-!
Embedding of the earlier revision, `optical_zoom/zoom_piloting.py`.  Its
module-level `connector` and `motors` dictionaries hold the same contents as
the class attributes above, so the top-level `connector` and `motors`
definitions are reused.  Its `zoom_pos` table is side-independent and stores
the coordinate values as strings with a trailing space.
-/

/-- One entry of the position table of the earlier revision: the values are
strings (with a trailing space) spliced directly into the G-code line. -/
structure ZoomFocusStr where
  zoom : String
  focus : String
  deriving Repr, DecidableEq

/-- Module-level `zoom_pos` of `optical_zoom/zoom_piloting.py`. -/
def zoom_pos : List (String × ZoomFocusStr) :=
  [ ("in", ⟨"500 ", "20 "⟩), ("inter", ⟨"350 ", "320 "⟩), ("out", ⟨"50 ", "500 "⟩) ]

/-- `ZoomController.__init__` of the earlier revision: opens and flushes the
port, stores `speed`, writes the init sequence, reads one line, and asserts
that the reply decodes to "ok\r\n". -/
def init (port : String) (baudrate timeout speed : Int) (reply : String) :
    List SerialEvent × Except PyError ZoomController :=
  let _ := port
  let _ := baudrate
  let _ := timeout
  let events := [SerialEvent.write (init_seq ++ "\n"), SerialEvent.read]
  if reply = "ok\r\n" then
    (events, Except.ok ⟨speed⟩)
  else
    (events, Except.error (PyError.assertionError
      "Initialization of zoom controller failed, check that the control board is plugged in."))

/-- `ZoomController.send_zoom_command` of the earlier revision: one combined
line carrying both axis letters, built from the string-valued table. -/
def send_zoom_command (self : ZoomController) (side zoom_level : String) :
    List SerialEvent × Except PyError ZoomController :=
  match dget zoom_pos zoom_level with
  | none => ([], Except.error PyError.keyError)
  | some zf =>
    match Option.bind (dget connector side) (dget motors) with
    | none => ([], Except.error PyError.keyError)
    | some mot =>
      let command := "G1 " ++ mot.zoom ++ zf.zoom ++ mot.focus ++ zf.focus
        ++ "F" ++ toString self.speed
      ([SerialEvent.write (command ++ "\n"), SerialEvent.read], Except.ok self)

/-- `ZoomController._send_custom_command` of the earlier revision: asserts
0 < zoom < 600 and 0 < focus < 500 (strict bounds) before any write, then
sends one combined line and reads one line. -/
def send_custom_command (self : ZoomController) (side : String)
    (zoom focus : Int) : List SerialEvent × Except PyError ZoomController :=
  if ¬ (0 < zoom ∧ zoom < 600) then
    ([], Except.error (PyError.assertionError "Zoom value must be between 0 and 600."))
  else if ¬ (0 < focus ∧ focus < 500) then
    ([], Except.error (PyError.assertionError "Focus value must be between 0 and 500."))
  else
    match Option.bind (dget connector side) (dget motors) with
    | none => ([], Except.error PyError.keyError)
    | some mot =>
      let command := "G1 " ++ mot.zoom ++ toString zoom ++ mot.focus
        ++ toString focus ++ "F" ++ toString self.speed
      ([SerialEvent.write (command ++ "\n"), SerialEvent.read], Except.ok self)

/-- `ZoomController.homing` of the earlier revision: six fixed lines
(relative mode, feed rate, focus move, zoom move, absolute mode, set-zero),
each written then acknowledged by one readline. -/
def homing (self : ZoomController) (side : String) :
    List SerialEvent × Except PyError ZoomController :=
  match Option.bind (dget connector side) (dget motors) with
  | none => ([], Except.error PyError.keyError)
  | some mot =>
    let sequence := ["G91", "F30000",
      "G1 " ++ mot.focus ++ "-500",
      "G1 " ++ mot.zoom ++ "-1200",
      "G90",
      "G92 " ++ mot.zoom ++ "0 " ++ mot.focus ++ "0"]
    (sequence.flatMap (fun seq => [SerialEvent.write (seq ++ "\n"), SerialEvent.read]),
     Except.ok self)

/-- `ZoomController.set_speed` of the earlier revision: asserts
4000 < speed_value < 40000 (strict bounds — 4000 and 40000 themselves are
rejected), then stores the value. -/
def set_speed (self : ZoomController) (speed_value : Int) :
    Except PyError ZoomController :=
  if ¬ (4000 < speed_value ∧ speed_value < 40000) then
    Except.error (PyError.assertionError "Speed value must be between 4000 and 40000")
  else
    Except.ok { self with speed := speed_value }

end OpticalZoom

/-- Whether a serial event is a line written to the channel. -/
def SerialEvent.isWrite : SerialEvent → Bool
  | SerialEvent.write _ => true
  | SerialEvent.read => false

/-- Number of protocol lines written in a transcript. -/
def countWrites (events : List SerialEvent) : Nat :=
  events.countP SerialEvent.isWrite

/-- The transcript strictly alternates write, read, write, read, …,
beginning with a write and pairing every write with exactly one read. -/
def alternatesWR : List SerialEvent → Bool
  | [] => true
  | SerialEvent.write _ :: SerialEvent.read :: rest => alternatesWR rest
  | _ => false

/-- Whether resolving (side, level) in the position table succeeds with a
zoom value within 0–600 and a focus value within 0–500. -/
def resolveLevelInRange (side level : String) : Bool :=
  match Option.bind (dget zoom_pos side) (fun t => dget t level) with
  | some zf => decide (0 ≤ zf.zoom ∧ zf.zoom ≤ 600 ∧ 0 ≤ zf.focus ∧ zf.focus ≤ 500)
  | none => false

/-- One successfully completed driver operation after construction: the
possible transitions of the stored state of a live `ZoomController`. -/
inductive Step : ZoomController → ZoomController → Prop where
  | set_speed (c c' : ZoomController) (v : Int)
      (h : c.set_speed v = Except.ok c') : Step c c'
  | send_zoom_command (c c' : ZoomController) (side level : String)
      (h : (c.send_zoom_command side level).2 = Except.ok c') : Step c c'
  | send_zoom_command_two_cameras (c c' : ZoomController) (l r : String)
      (h : (c.send_zoom_command_two_cameras l r).2 = Except.ok c') : Step c c'
  | send_custom_command (c c' : ZoomController) (side : String) (zoom focus : Int)
      (h : (c.send_custom_command side zoom focus).2 = Except.ok c') : Step c c'
  | send_custom_zoom_two_cameras (c c' : ZoomController) (l r : Int)
      (h : (c.send_custom_zoom_two_cameras l r).2 = Except.ok c') : Step c c'
  | send_custom_focus_two_cameras (c c' : ZoomController) (l r : Int)
      (h : (c.send_custom_focus_two_cameras l r).2 = Except.ok c') : Step c c'
  | homing (c c' : ZoomController) (side : String)
      (h : (c.homing side).2 = Except.ok c') : Step c c'

theorem alternatesWR_append : ∀ {a b : List SerialEvent},
    alternatesWR a = true → alternatesWR b = true → alternatesWR (a ++ b) = true
  | [], _, _, hb => by simpa
  | SerialEvent.write _ :: SerialEvent.read :: rest, b, ha, hb => by
    simp only [alternatesWR] at ha
    simpa [alternatesWR] using alternatesWR_append ha hb
  | [SerialEvent.write _], _, ha, _ => by simp [alternatesWR] at ha
  | SerialEvent.write _ :: SerialEvent.write _ :: _, _, ha, _ => by
    simp [alternatesWR] at ha
  | SerialEvent.read :: _, _, ha, _ => by simp [alternatesWR] at ha

/-- A single write/read exchange alternates. -/
theorem alternatesWR_pair (s : String) :
    alternatesWR [SerialEvent.write s, SerialEvent.read] = true := rfl

/-- Every transcript produced by `_send_custom_command` alternates
write/read (either empty on KeyError or two write/read pairs). -/
theorem send_custom_command_alternates (c : ZoomController) (side : String)
    (zoom focus : Int) :
    alternatesWR (c.send_custom_command side zoom focus).1 = true := by
  unfold ZoomController.send_custom_command
  cases Option.bind (dget connector side) (dget motors) <;> simp [alternatesWR]

/-- `send_custom_zoom_two_cameras` transcripts alternate write/read. -/
theorem send_custom_zoom_two_alternates (c : ZoomController) (l r : Int) :
    alternatesWR (c.send_custom_zoom_two_cameras l r).1 = true := by
  unfold ZoomController.send_custom_zoom_two_cameras
  by_cases hc : ¬ ((0 ≤ l ∧ l ≤ 600) ∨ (0 ≤ r ∧ r ≤ 600))
  · rw [if_pos hc]
    rfl
  · rw [if_neg hc]
    rfl

/-- `send_custom_focus_two_cameras` transcripts alternate write/read. -/
theorem send_custom_focus_two_alternates (c : ZoomController) (l r : Int) :
    alternatesWR (c.send_custom_focus_two_cameras l r).1 = true := by
  unfold ZoomController.send_custom_focus_two_cameras
  by_cases hc : ¬ ((0 ≤ l ∧ l ≤ 500) ∨ (0 ≤ r ∧ r ≤ 500))
  · rw [if_pos hc]
    rfl
  · rw [if_neg hc]
    rfl

/-- With a resolvable side, `_send_custom_command` produces exactly its two
move lines and returns the receiver unchanged. -/
theorem send_custom_command_eq (c : ZoomController) (side : String) (z f : Int)
    (mot : MotorPair)
    (h : Option.bind (dget connector side) (dget motors) = some mot) :
    c.send_custom_command side z f =
      ([SerialEvent.write ("G1 " ++ mot.zoom ++ toString z ++ " F"
          ++ toString c.speed ++ "\n"), SerialEvent.read,
        SerialEvent.write ("G1 " ++ mot.focus ++ toString f ++ " F"
          ++ toString c.speed ++ "\n"), SerialEvent.read],
       Except.ok c) := by
  unfold ZoomController.send_custom_command
  rw [h]

/-- With a resolvable side, `homing` produces exactly its six lines (twelve
serial events) and returns the receiver unchanged. -/
theorem homing_eq (c : ZoomController) (side : String) (mot : MotorPair)
    (h : Option.bind (dget connector side) (dget motors) = some mot) :
    c.homing side =
      ([SerialEvent.write ("G92 " ++ mot.zoom ++ "0 " ++ mot.focus ++ "0" ++ "\n"),
        SerialEvent.read,
        SerialEvent.write ("G1 " ++ mot.zoom ++ "0" ++ " F" ++ toString c.speed ++ "\n"),
        SerialEvent.read,
        SerialEvent.write ("G1 " ++ mot.focus ++ "-500" ++ " F" ++ toString c.speed ++ "\n"),
        SerialEvent.read,
        SerialEvent.write ("G1 " ++ mot.zoom ++ "-600" ++ " F" ++ toString c.speed ++ "\n"),
        SerialEvent.read,
        SerialEvent.write ("G1 " ++ mot.focus ++ "-500" ++ " F" ++ toString c.speed ++ "\n"),
        SerialEvent.read,
        SerialEvent.write ("G92 " ++ mot.zoom ++ "0 " ++ mot.focus ++ "0" ++ "\n"),
        SerialEvent.read],
       Except.ok c) := by
  unfold ZoomController.homing
  rw [h]
  dsimp only
  rw [send_custom_command_eq c side 0 (-500) mot h]
  dsimp only
  rw [send_custom_command_eq c side (-600) (-500) mot h]
  rfl

/-- `_send_custom_command` never changes the stored state: the returned
controller is the receiver. -/
theorem send_custom_command_state (c c' : ZoomController) (side : String)
    (zoom focus : Int)
    (h : (c.send_custom_command side zoom focus).2 = Except.ok c') : c' = c := by
  unfold ZoomController.send_custom_command at h
  cases hm : Option.bind (dget connector side) (dget motors) <;>
    simp [hm] at h
  exact h.symm

/-- `send_zoom_command` never changes the stored state. -/
theorem send_zoom_command_state (c c' : ZoomController) (side level : String)
    (h : (c.send_zoom_command side level).2 = Except.ok c') : c' = c := by
  unfold ZoomController.send_zoom_command at h
  cases hz : Option.bind (dget zoom_pos side) (fun t => dget t level) with
  | none => simp [hz] at h
  | some zf =>
    rw [hz] at h
    exact send_custom_command_state c c' side zf.zoom zf.focus h

/-- `send_custom_zoom_two_cameras` never changes the stored state. -/
theorem send_custom_zoom_two_state (c c' : ZoomController) (l r : Int)
    (h : (c.send_custom_zoom_two_cameras l r).2 = Except.ok c') : c' = c := by
  unfold ZoomController.send_custom_zoom_two_cameras at h
  by_cases hr : ¬ ((0 ≤ l ∧ l ≤ 600) ∨ (0 ≤ r ∧ r ≤ 600))
  · simp [hr] at h
  · simp only [if_neg hr] at h
    simp [dget, motors, connector] at h
    exact h.symm

/-- `send_custom_focus_two_cameras` never changes the stored state. -/
theorem send_custom_focus_two_state (c c' : ZoomController) (l r : Int)
    (h : (c.send_custom_focus_two_cameras l r).2 = Except.ok c') : c' = c := by
  unfold ZoomController.send_custom_focus_two_cameras at h
  by_cases hr : ¬ ((0 ≤ l ∧ l ≤ 500) ∨ (0 ≤ r ∧ r ≤ 500))
  · simp [hr] at h
  · simp only [if_neg hr] at h
    simp [dget, motors, connector] at h
    exact h.symm

/-- `send_zoom_command_two_cameras` never changes the stored state. -/
theorem send_zoom_command_two_state (c c' : ZoomController) (l r : String)
    (h : (c.send_zoom_command_two_cameras l r).2 = Except.ok c') : c' = c := by
  unfold ZoomController.send_zoom_command_two_cameras at h
  cases hl : Option.bind (dget zoom_pos "left") (fun t => dget t l) with
  | none => simp [hl] at h
  | some zl =>
    cases hr : Option.bind (dget zoom_pos "right") (fun t => dget t r) with
    | none => simp [hl, hr] at h
    | some zr =>
      rw [hl, hr] at h
      exact send_custom_zoom_two_state c c' zl.zoom zr.zoom h

/-- A successful `set_speed` stores exactly the requested value, and the
value passed the inclusive range check. -/
theorem set_speed_ok (c c' : ZoomController) (v : Int)
    (h : c.set_speed v = Except.ok c') :
    c' = ⟨v⟩ ∧ 4000 ≤ v ∧ v ≤ 40000 := by
  unfold ZoomController.set_speed at h
  by_cases hv : (4000 ≤ v ∧ v ≤ 40000)
  · rw [if_neg (not_not_intro hv)] at h
    injection h with h
    exact ⟨h.symm, hv⟩
  · rw [if_pos hv] at h
    cases h

/-- `homing` never changes the stored state. -/
theorem homing_state (c c' : ZoomController) (side : String)
    (h : (c.homing side).2 = Except.ok c') : c' = c := by
  unfold ZoomController.homing at h
  cases hm : Option.bind (dget connector side) (dget motors) with
  | none => simp [hm] at h
  | some mot =>
    rw [hm] at h
    rcases h1 : c.send_custom_command side 0 (-500) with ⟨ev1, r1⟩
    rcases r1 with e1 | s1
    · simp [h1] at h
    · rcases h2 : s1.send_custom_command side (-600) (-500) with ⟨ev2, r2⟩
      rcases r2 with e2 | s2
      · simp [h1, h2] at h
      · simp only [h1, h2] at h
        simp at h
        have hs1 : s1 = c :=
          send_custom_command_state c s1 side 0 (-500) (by rw [h1])
        have hs2 : s2 = s1 :=
          send_custom_command_state s1 s2 side (-600) (-500) (by rw [h2])
        rw [← h, hs2, hs1]

/-- Every driver operation preserves the speed invariant: moves and homing
leave the speed unchanged, and `set_speed` only stores validated values. -/
theorem Step_preserves_speed_range {b c : ZoomController} (h : Step b c)
    (hb : 4000 ≤ b.speed ∧ b.speed ≤ 40000) :
    4000 ≤ c.speed ∧ c.speed ≤ 40000 := by
  cases h with
  | set_speed v h =>
    obtain ⟨hc, hlo, hhi⟩ := set_speed_ok b c v h
    rw [hc]
    exact ⟨hlo, hhi⟩
  | send_zoom_command side level h =>
    rw [send_zoom_command_state b c side level h]; exact hb
  | send_zoom_command_two_cameras l r h =>
    rw [send_zoom_command_two_state b c l r h]; exact hb
  | send_custom_command side zoom focus h =>
    rw [send_custom_command_state b c side zoom focus h]; exact hb
  | send_custom_zoom_two_cameras l r h =>
    rw [send_custom_zoom_two_state b c l r h]; exact hb
  | send_custom_focus_two_cameras l r h =>
    rw [send_custom_focus_two_state b c l r h]; exact hb
  | homing side h =>
    rw [homing_state b c side h]; exact hb

/-- C1: the dual-camera move operations are claimed to validate both values
and to fail with RangeError, sending nothing, when either is out of range;
the code combines the two range tests with `or`, so with left = 700 (out of
range) and right = 300 (in range) no error is raised and the combined line
IS transmitted — for both the zoom and the focus variant.  The guard only
fires when both values are out of range (700, 700). -/
theorem C1_dual_camera_or_check_sends_out_of_range :
    ZoomController.send_custom_zoom_two_cameras ⟨10000⟩ 700 300
      = ([SerialEvent.write "G1 X700 Z300 F10000\n", SerialEvent.read],
         Except.ok ⟨10000⟩) ∧
    ZoomController.send_custom_focus_two_cameras ⟨10000⟩ 700 300
      = ([SerialEvent.write "G1 Y700 A300 F10000\n", SerialEvent.read],
         Except.ok ⟨10000⟩) ∧
    ¬ ((0:Int) ≤ 700 ∧ (700:Int) ≤ 600) ∧
    ZoomController.send_custom_zoom_two_cameras ⟨10000⟩ 700 700
      = ([], Except.error (PyError.valueError "Zoom value must be between 0 and 600.")) := by
  refine ⟨?_, ?_, by decide, ?_⟩ <;> rfl

/-- C2 counterexample: in the current revision, `_send_custom_command`
performs no range validation at all — with zoom 700 (outside 0–600) it
raises nothing and transmits both of its move lines. -/
theorem C2_single_axis_no_validation_counterexample :
    (700:Int) > 600 ∧
    ZoomController.send_custom_command ⟨10000⟩ "left" 700 300
      = ([SerialEvent.write "G1 X700 F10000\n", SerialEvent.read,
          SerialEvent.write "G1 Y300 F10000\n", SerialEvent.read],
         Except.ok ⟨10000⟩) := ⟨by decide, rfl⟩

/-- C2 amended: only the earlier revision validates the single-axis values —
there any value outside the legal range (zoom 0–600, focus 0–500) fails via
assertion before any byte is written, with an empty transcript; the current
revision writes its two command lines for every value without validation. -/
theorem C2_single_axis_validation_amended :
    (∀ (c : ZoomController) (side : String) (z f : Int),
      (z < 0 ∨ 600 < z ∨ f < 0 ∨ 500 < f) →
        (OpticalZoom.send_custom_command c side z f).1 = [] ∧
        ∃ msg, (OpticalZoom.send_custom_command c side z f).2
          = Except.error (PyError.assertionError msg)) ∧
    (∀ (c : ZoomController) (z f : Int),
      countWrites (c.send_custom_command "left" z f).1 = 2 ∧
      (c.send_custom_command "left" z f).2 = Except.ok c) := by
  constructor
  · intro c side z f hout
    unfold OpticalZoom.send_custom_command
    by_cases hz : (0 < z ∧ z < 600)
    · have hf : ¬ (0 < f ∧ f < 500) := by omega
      rw [if_neg (not_not_intro hz), if_pos hf]
      exact ⟨rfl, _, rfl⟩
    · rw [if_pos hz]
      exact ⟨rfl, _, rfl⟩
  · intro c z f
    exact ⟨rfl, rfl⟩

/-- C2 witness: at zoom 700, focus 300, the earlier revision fails with an
empty transcript while the current revision writes its two lines. -/
theorem C2_single_axis_validation_amended_witness :
    ((OpticalZoom.send_custom_command ⟨10000⟩ "left" 700 300).1 = [] ∧
      ∃ msg, (OpticalZoom.send_custom_command ⟨10000⟩ "left" 700 300).2
        = Except.error (PyError.assertionError msg)) ∧
    (countWrites ((ZoomController.mk 10000).send_custom_command "left" 700 300).1 = 2 ∧
      ((ZoomController.mk 10000).send_custom_command "left" 700 300).2
        = Except.ok ⟨10000⟩) :=
  ⟨C2_single_axis_validation_amended.1 ⟨10000⟩ "left" 700 300 (by decide),
   C2_single_axis_validation_amended.2 ⟨10000⟩ 700 300⟩

/-- C3 counterexample: the constructor stores its speed argument without any
validation, so constructing with speed 0 yields a ready driver whose stored
speed violates 4000 ≤ speed. -/
theorem C3_constructor_speed_unvalidated_counterexample :
    (ZoomController.init "/dev/ttyACM0" 115200 10 0 "ok\r\n").2
      = Except.ok ⟨0⟩ ∧
    ¬ (4000 ≤ (ZoomController.mk 0).speed) := ⟨rfl, by decide⟩

/-- C3 amended: provided the speed argument passed to the constructor lies
within [4000, 40000] (the default 10000 does), every state reachable through
any sequence of successful driver operations satisfies
4000 ≤ speed ≤ 40000; a rejected `set_speed` raises before mutating, so it
is not a state transition and the prior speed persists. -/
theorem C3_speed_invariant_amended (port : String) (baudrate timeout s0 : Int)
    (reply : String) (c0 c : ZoomController)
    (hinit : (ZoomController.init port baudrate timeout s0 reply).2 = Except.ok c0)
    (hlo : 4000 ≤ s0) (hhi : s0 ≤ 40000)
    (hreach : Relation.ReflTransGen Step c0 c) :
    4000 ≤ c.speed ∧ c.speed ≤ 40000 := by
  have hc0 : c0.speed = s0 := by
    unfold ZoomController.init at hinit
    by_cases hr : reply = "ok\r\n"
    · rw [if_pos hr] at hinit
      simp at hinit
      rw [← hinit]
    · rw [if_neg hr] at hinit
      cases hinit
  induction hreach with
  | refl => rw [hc0]; exact ⟨hlo, hhi⟩
  | tail hsteps hstep ih => exact Step_preserves_speed_range hstep ih

/-- C3 witness: a driver constructed with the default speed 10000 satisfies
the invariant. -/
theorem C3_speed_invariant_amended_witness :
    4000 ≤ (ZoomController.mk 10000).speed ∧ (ZoomController.mk 10000).speed ≤ 40000 :=
  C3_speed_invariant_amended "/dev/ttyACM0" 115200 10 10000 "ok\r\n" ⟨10000⟩ ⟨10000⟩
    rfl (by decide) (by decide) Relation.ReflTransGen.refl

/-- C4 counterexample: homing on side "left" writes six protocol lines, not
four — each of the two overshoot moves is sent as two single-axis lines. -/
theorem C4_homing_line_count_counterexample :
    countWrites ((ZoomController.homing ⟨10000⟩ "left").1) = 6 ∧ (6:Nat) ≠ 4 :=
  ⟨rfl, by decide⟩

/-- C4 amended: homing on side "left" emits exactly six protocol lines — a
set-zero line, a first overshoot move sent as two single-axis lines (zoom 0,
focus −500), a second overshoot move sent as two single-axis lines
(zoom −600, focus −500), and a second set-zero line — in that fixed order;
the transcript is the same for every starting state (the driver stores no
position, and the lines depend only on the configured speed). -/
theorem C4_homing_six_lines_amended (c : ZoomController) :
    (c.homing "left").1 =
      [SerialEvent.write "G92 X0 Y0\n", SerialEvent.read,
       SerialEvent.write ("G1 X0 F" ++ toString c.speed ++ "\n"), SerialEvent.read,
       SerialEvent.write ("G1 Y-500 F" ++ toString c.speed ++ "\n"), SerialEvent.read,
       SerialEvent.write ("G1 X-600 F" ++ toString c.speed ++ "\n"), SerialEvent.read,
       SerialEvent.write ("G1 Y-500 F" ++ toString c.speed ++ "\n"), SerialEvent.read,
       SerialEvent.write "G92 X0 Y0\n", SerialEvent.read] ∧
    countWrites (c.homing "left").1 = 6 ∧
    (c.homing "left").2 = Except.ok c := ⟨rfl, rfl, rfl⟩

/-- C5 counterexample: in the earlier revision the bounds are strict, so the
boundary value 4000 — which the claim says must succeed — is rejected. -/
theorem C5_set_speed_boundary_counterexample :
    (4000 ≤ (4000:Int) ∧ (4000:Int) ≤ 40000) ∧
    OpticalZoom.set_speed ⟨10000⟩ 4000
      = Except.error (PyError.assertionError "Speed value must be between 4000 and 40000") :=
  ⟨by decide, rfl⟩

/-- C5 amended: in the current revision `set_speed` succeeds exactly for
4000 ≤ v ≤ 40000 (boundaries included), stores v, and is idempotent under
repeated valid calls; out-of-range values raise ValueError and, since the
store happens only after the check, the prior speed is untouched — e.g.
set_speed 5000 then set_speed 999999 leaves the speed at 5000.  In the
earlier revision the bounds are strict (4000 < v < 40000), so the boundary
values themselves are rejected. -/
theorem C5_set_speed_amended :
    (∀ (c : ZoomController) (v : Int), 4000 ≤ v → v ≤ 40000 →
      c.set_speed v = Except.ok ⟨v⟩) ∧
    (∀ (c : ZoomController) (v : Int), ¬ (4000 ≤ v ∧ v ≤ 40000) →
      c.set_speed v
        = Except.error (PyError.valueError "Speed value must be between 4000 and 40000")) ∧
    (∀ (c c' : ZoomController) (v : Int), c.set_speed v = Except.ok c' →
      c'.set_speed v = Except.ok c') ∧
    (∀ (c : ZoomController) (v : Int), 4000 < v → v < 40000 →
      OpticalZoom.set_speed c v = Except.ok ⟨v⟩) ∧
    (∀ (c : ZoomController) (v : Int), ¬ (4000 < v ∧ v < 40000) →
      OpticalZoom.set_speed c v
        = Except.error (PyError.assertionError "Speed value must be between 4000 and 40000")) ∧
    ZoomController.set_speed ⟨10000⟩ 5000 = Except.ok ⟨5000⟩ ∧
    ZoomController.set_speed ⟨5000⟩ 999999
      = Except.error (PyError.valueError "Speed value must be between 4000 and 40000") := by
  refine ⟨?_, ?_, ?_, ?_, ?_, rfl, rfl⟩
  · intro c v hlo hhi
    unfold ZoomController.set_speed
    rw [if_neg (not_not_intro ⟨hlo, hhi⟩)]
  · intro c v hv
    unfold ZoomController.set_speed
    rw [if_pos hv]
  · intro c c' v h
    obtain ⟨hc, hlo, hhi⟩ := set_speed_ok c c' v h
    subst hc
    unfold ZoomController.set_speed
    rw [if_neg (not_not_intro ⟨hlo, hhi⟩)]
  · intro c v hlo hhi
    unfold OpticalZoom.set_speed
    rw [if_neg (not_not_intro ⟨hlo, hhi⟩)]
  · intro c v hv
    unfold OpticalZoom.set_speed
    rw [if_pos hv]

/-- C5 witness: 5000 is accepted by the current revision; the boundary 4000
is rejected by the earlier revision. -/
theorem C5_set_speed_amended_witness :
    ZoomController.set_speed ⟨10000⟩ 5000 = Except.ok ⟨5000⟩ ∧
    OpticalZoom.set_speed ⟨10000⟩ 4000
      = Except.error (PyError.assertionError "Speed value must be between 4000 and 40000") :=
  ⟨C5_set_speed_amended.1 ⟨10000⟩ 5000 (by decide) (by decide),
   C5_set_speed_amended.2.2.2.2.1 ⟨10000⟩ 4000 (by decide)⟩

/-- C6: initialization writes the fixed configuration line, reads exactly one
line, and succeeds — yielding a ready driver with the requested speed — if
and only if the reply is the literal "ok" plus the "\r\n" terminator; on any
other reply it raises (IOError in the current revision, AssertionError in the
earlier one) and no driver is produced.  This holds in both revisions. -/
theorem C6_init_handshake (port : String) (baudrate timeout v : Int) (reply : String) :
    (ZoomController.init port baudrate timeout v reply).1
      = [SerialEvent.write (init_seq ++ "\n"), SerialEvent.read] ∧
    (reply = "ok\r\n" →
      (ZoomController.init port baudrate timeout v reply).2 = Except.ok ⟨v⟩) ∧
    (reply ≠ "ok\r\n" →
      (ZoomController.init port baudrate timeout v reply).2
        = Except.error (PyError.ioError
            "Initialization of zoom controller failed, check that the control board is correctly plugged in.")) ∧
    (OpticalZoom.init port baudrate timeout v reply).1
      = [SerialEvent.write (init_seq ++ "\n"), SerialEvent.read] ∧
    (reply = "ok\r\n" →
      (OpticalZoom.init port baudrate timeout v reply).2 = Except.ok ⟨v⟩) ∧
    (reply ≠ "ok\r\n" →
      (OpticalZoom.init port baudrate timeout v reply).2
        = Except.error (PyError.assertionError
            "Initialization of zoom controller failed, check that the control board is plugged in.")) := by
  unfold ZoomController.init OpticalZoom.init
  by_cases hr : reply = "ok\r\n"
  · rw [if_pos hr, if_pos hr]
    exact ⟨rfl, fun _ => rfl, fun h => absurd hr h, rfl, fun _ => rfl, fun h => absurd hr h⟩
  · rw [if_neg hr, if_neg hr]
    exact ⟨rfl, fun h => absurd h hr, fun _ => rfl, rfl, fun h => absurd h hr, fun _ => rfl⟩

/-- C6 witness: with reply "ok\r\n" the driver is ready with speed 10000;
with reply "error\r\n" initialization raises. -/
theorem C6_init_handshake_witness :
    (ZoomController.init "/dev/ttyACM0" 115200 10 10000 "ok\r\n").2
      = Except.ok ⟨10000⟩ ∧
    (ZoomController.init "/dev/ttyACM0" 115200 10 10000 "error\r\n").2
      = Except.error (PyError.ioError
          "Initialization of zoom controller failed, check that the control board is correctly plugged in.") :=
  ⟨(C6_init_handshake "/dev/ttyACM0" 115200 10 10000 "ok\r\n").2.1 rfl,
   (C6_init_handshake "/dev/ttyACM0" 115200 10 10000 "error\r\n").2.2.1 (by decide)⟩

/-- C7: side "left" is bound to connector "J1" whose motor letters are X
(zoom) and Y (focus); the "in" entry for "left" resolves to zoom 457,
focus 70; and `send_zoom_command "left" "in"` transmits the zoom line
G1 X457 F(speed) first and then the focus line G1 Y70 F(speed), each
acknowledged by one read, at the currently configured speed. -/
theorem C7_move_left_in (c : ZoomController) :
    dget connector "left" = some "J1" ∧
    dget motors "J1" = some ⟨"X", "Y"⟩ ∧
    Option.bind (dget zoom_pos "left") (fun t => dget t "in") = some ⟨457, 70⟩ ∧
    c.send_zoom_command "left" "in"
      = ([SerialEvent.write ("G1 X457 F" ++ toString c.speed ++ "\n"), SerialEvent.read,
          SerialEvent.write ("G1 Y70 F" ++ toString c.speed ++ "\n"), SerialEvent.read],
         Except.ok c) := ⟨rfl, rfl, rfl, rfl⟩

/-- C8: for every side in {left, right} and every named level in
{in, inter, out}, resolving the pair in the position table succeeds and
yields a zoom value within 0–600 and a focus value within 0–500. -/
theorem C8_table_consistency :
    ∀ side ∈ ["left", "right"], ∀ level ∈ ["in", "inter", "out"],
      resolveLevelInRange side level = true := by decide

/-- C8 witness: the ("left", "in") entry resolves within range. -/
theorem C8_table_consistency_witness : resolveLevelInRange "left" "in" = true :=
  C8_table_consistency "left" (by decide) "in" (by decide)

/-- C9: in every driver operation of both revisions — initialization,
single-axis and named-level moves, dual-camera moves, and homing — the
serial transcript strictly alternates write, read, write, read, beginning
with a write: each written line is followed by exactly one blocking read
before any further line is written. -/
theorem C9_write_read_alternation :
    (∀ (port : String) (baudrate timeout v : Int) (reply : String),
      alternatesWR (ZoomController.init port baudrate timeout v reply).1 = true) ∧
    (∀ (c : ZoomController) (side : String) (z f : Int),
      alternatesWR (c.send_custom_command side z f).1 = true) ∧
    (∀ (c : ZoomController) (side level : String),
      alternatesWR (c.send_zoom_command side level).1 = true) ∧
    (∀ (c : ZoomController) (l r : String),
      alternatesWR (c.send_zoom_command_two_cameras l r).1 = true) ∧
    (∀ (c : ZoomController) (l r : Int),
      alternatesWR (c.send_custom_zoom_two_cameras l r).1 = true) ∧
    (∀ (c : ZoomController) (l r : Int),
      alternatesWR (c.send_custom_focus_two_cameras l r).1 = true) ∧
    (∀ (c : ZoomController) (side : String),
      alternatesWR (c.homing side).1 = true) ∧
    (∀ (port : String) (baudrate timeout v : Int) (reply : String),
      alternatesWR (OpticalZoom.init port baudrate timeout v reply).1 = true) ∧
    (∀ (c : ZoomController) (side : String) (z f : Int),
      alternatesWR (OpticalZoom.send_custom_command c side z f).1 = true) ∧
    (∀ (c : ZoomController) (side level : String),
      alternatesWR (OpticalZoom.send_zoom_command c side level).1 = true) ∧
    (∀ (c : ZoomController) (side : String),
      alternatesWR (OpticalZoom.homing c side).1 = true) := by
  refine ⟨?_, send_custom_command_alternates, ?_, ?_, ?_, ?_, ?_, ?_, ?_, ?_, ?_⟩
  · intro port baudrate timeout v reply
    unfold ZoomController.init
    split <;> rfl
  · intro c side level
    unfold ZoomController.send_zoom_command
    cases Option.bind (dget zoom_pos side) (fun t => dget t level) with
    | none => rfl
    | some zf => exact send_custom_command_alternates c side zf.zoom zf.focus
  · intro c l r
    unfold ZoomController.send_zoom_command_two_cameras
    cases Option.bind (dget zoom_pos "left") (fun t => dget t l) with
    | none => rfl
    | some zl =>
      cases Option.bind (dget zoom_pos "right") (fun t => dget t r) with
      | none => rfl
      | some zr => exact send_custom_zoom_two_alternates c zl.zoom zr.zoom
  · exact send_custom_zoom_two_alternates
  · exact send_custom_focus_two_alternates
  · intro c side
    cases hm : Option.bind (dget connector side) (dget motors) with
    | none =>
      unfold ZoomController.homing
      rw [hm]
      rfl
    | some mot =>
      rw [homing_eq c side mot hm]
      rfl
  · intro port baudrate timeout v reply
    unfold OpticalZoom.init
    split <;> rfl
  · intro c side z f
    unfold OpticalZoom.send_custom_command
    split
    · rfl
    · split
      · rfl
      · cases Option.bind (dget connector side) (dget motors) <;> rfl
  · intro c side level
    unfold OpticalZoom.send_zoom_command
    cases dget OpticalZoom.zoom_pos level with
    | none => rfl
    | some zf => cases Option.bind (dget connector side) (dget motors) <;> rfl
  · intro c side
    unfold OpticalZoom.homing
    cases Option.bind (dget connector side) (dget motors) <;> rfl

/-- C10: every successful operation other than `set_speed` and construction
returns the receiver state unchanged — the stored speed (and with it every
field of the driver state; the topology and position tables are class-level
constants embedded as immutable top-level definitions) is identical before
and after `send_zoom_command`, `send_zoom_command_two_cameras`,
`send_custom_zoom_two_cameras`, `send_custom_focus_two_cameras`, and
`homing`; when one of them raises, no new state exists at all. -/
theorem C10_frame_condition (c c' : ZoomController) :
    (∀ side level : String,
      (c.send_zoom_command side level).2 = Except.ok c' → c' = c) ∧
    (∀ l r : String,
      (c.send_zoom_command_two_cameras l r).2 = Except.ok c' → c' = c) ∧
    (∀ l r : Int,
      (c.send_custom_zoom_two_cameras l r).2 = Except.ok c' → c' = c) ∧
    (∀ l r : Int,
      (c.send_custom_focus_two_cameras l r).2 = Except.ok c' → c' = c) ∧
    (∀ side : String, (c.homing side).2 = Except.ok c' → c' = c) :=
  ⟨fun side level => send_zoom_command_state c c' side level,
   fun l r => send_zoom_command_two_state c c' l r,
   fun l r => send_custom_zoom_two_state c c' l r,
   fun l r => send_custom_focus_two_state c c' l r,
   fun side => homing_state c c' side⟩

/-- C10 witness: homing on "left" from speed 10000 succeeds and leaves the
state unchanged. -/
theorem C10_frame_condition_witness :
    ((ZoomController.mk 10000).homing "left").2 = Except.ok (ZoomController.mk 10000) ∧
    (ZoomController.mk 10000) = ZoomController.mk 10000 :=
  ⟨rfl, (C10_frame_condition ⟨10000⟩ ⟨10000⟩).2.2.2.2 "left" rfl⟩
